import Mathlib

set_option maxRecDepth 8000

/-!
Verification of the G1-format sprite container decoders of the
life-simulator repository.

The repository contains two independent Python decoders for the RCT2
`g1.dat` sprite container:

* `extract_rct2_sprites.py` — class `G1DATExtractor` with on-demand header
  caching (`extract_sprite`), treating the run-header high bit as a
  transparent-run marker;
* `extract_grass_simple.py` — `read_entry_header` / `extract_sprite_simple`,
  treating the high bit as an end-of-row marker with a per-run start-x byte;
* `extract_palette_from_g1.py` — builds the 256-color palette from the
  palette sprites of the container.

The byte source of a container is embedded as a `List Nat` of byte values;
reads are `Option`-valued (a `none` corresponds to a Python `struct.error`
or `IndexError` raised at end-of-file).  Raised exceptions that a decoder
catches are folded into its `Option` result exactly where the Python
`try`/`except` blocks sit; an exception that escapes a function is an
`Except.error`.  Rasters carry their pixel grid as a function
`Nat → Nat → Option RGB`, where `none` is the fully transparent RGBA pixel
`(0,0,0,0)` and `some (r,g,b)` is the opaque pixel `(r,g,b,255)`.
-/

abbrev RGB := Nat × Nat × Nat

/-- One byte read at an absolute position, as Python `f.read(1)[0]` after an
absolute seek: `none` at end of file. File bytes are values in `0..255`. -/
def readByte (bs : List Nat) (pos : Nat) : Option Nat :=
  (bs[pos]?).map (· % 256)

/-- Two-byte little-endian unsigned read, Python `struct.unpack('<H', f.read(2))`:
`none` (a `struct.error`) when fewer than two bytes remain. -/
def readU16 (bs : List Nat) (pos : Nat) : Option Nat :=
  match readByte bs pos, readByte bs (pos + 1) with
  | some b0, some b1 => some (b0 + 256 * b1)
  | _, _ => none

/-- Four-byte little-endian unsigned read, Python `struct.unpack('<I', f.read(4))`. -/
def readU32 (bs : List Nat) (pos : Nat) : Option Nat :=
  match readByte bs pos, readByte bs (pos + 1), readByte bs (pos + 2), readByte bs (pos + 3) with
  | some b0, some b1, some b2, some b3 =>
      some (b0 + 256 * b1 + 65536 * b2 + 16777216 * b3)
  | _, _, _, _ => none

/-- Reinterpret a 16-bit unsigned value as a signed 16-bit integer. -/
def toI16 (v : Nat) : Int :=
  if v < 32768 then (v : Int) else (v : Int) - 65536

/-- Two-byte little-endian signed read, Python `struct.unpack('<h', f.read(2))`. -/
def readI16 (bs : List Nat) (pos : Nat) : Option Int :=
  (readU16 bs pos).map toI16

/-- Three consecutive bytes read as an RGB triple,
Python `struct.unpack('BBB', f.read(3))`. -/
def rgbAt (bs : List Nat) (pos : Nat) : Option RGB :=
  match readByte bs pos, readByte bs (pos + 1), readByte bs (pos + 2) with
  | some r, some g, some b => some (r, g, b)
  | _, _, _ => none

/-- The compiled-in palette of `extract_rct2_sprites.py` (`RCT2_PALETTE`),
transcribed entry for entry from the Python list literal. -/
def RCT2_PALETTE : List RGB := [
  (0, 0, 0), (0, 0, 0), (0, 0, 0), (0, 0, 0), (0, 0, 0), (0, 0, 0),
  (0, 0, 0), (0, 0, 0), (0, 0, 0), (0, 0, 0), (35, 35, 23), (51, 51, 35),
  (67, 67, 47), (83, 83, 63), (99, 99, 75), (115, 115, 91), (131, 131, 111), (151, 151, 131),
  (175, 175, 159), (195, 195, 183), (219, 219, 211), (243, 243, 239), (0, 47, 51), (0, 59, 63),
  (11, 75, 79), (19, 91, 91), (31, 107, 107), (43, 127, 119), (59, 143, 135), (79, 155, 147),
  (95, 171, 159), (115, 187, 171), (135, 199, 183), (159, 215, 195), (183, 231, 211), (207, 247, 227),
  (227, 255, 239), (0, 47, 111), (0, 47, 159), (0, 47, 203), (0, 51, 255), (0, 87, 255),
  (0, 123, 255), (0, 155, 255), (0, 183, 255), (0, 219, 255), (0, 255, 255), (11, 67, 35),
  (15, 91, 47), (19, 111, 63), (23, 131, 75), (31, 151, 87), (39, 171, 99), (51, 187, 115),
  (63, 203, 131), (75, 219, 147), (91, 239, 167), (111, 255, 183), (43, 39, 27), (55, 51, 39),
  (67, 63, 51), (83, 75, 67), (95, 91, 83), (111, 111, 103), (127, 127, 123), (143, 147, 143),
  (159, 167, 163), (179, 187, 183), (199, 207, 203), (219, 227, 223), (0, 43, 0), (0, 63, 0),
  (7, 87, 0), (15, 107, 7), (19, 127, 15), (27, 147, 19), (35, 167, 31), (43, 187, 39),
  (55, 207, 51), (67, 227, 67), (83, 247, 87), (15, 7, 0), (27, 15, 0), (43, 23, 0),
  (55, 31, 0), (67, 43, 0), (83, 55, 0), (99, 67, 7), (115, 83, 15), (131, 99, 23),
  (147, 119, 35), (163, 135, 47), (183, 155, 63), (195, 175, 83), (207, 195, 103), (223, 215, 127),
  (239, 235, 159), (255, 255, 195), (111, 47, 0), (131, 59, 0), (151, 75, 0), (175, 91, 0),
  (191, 107, 7), (215, 127, 19), (235, 147, 35), (255, 171, 51), (255, 195, 75), (255, 219, 103),
  (255, 243, 139), (255, 255, 179), (75, 47, 11), (95, 59, 23), (115, 75, 35), (135, 95, 51),
  (159, 119, 67), (179, 139, 87), (199, 167, 111), (219, 187, 139), (239, 215, 167), (255, 239, 199),
  (255, 255, 227), (51, 31, 0), (63, 39, 0), (79, 51, 0), (95, 63, 7), (111, 75, 15),
  (131, 91, 27), (151, 111, 43), (171, 131, 59), (191, 155, 79), (207, 179, 99), (227, 203, 123),
  (247, 227, 147), (255, 255, 183), (255, 255, 219), (255, 255, 255), (107, 0, 0), (127, 0, 0),
  (151, 0, 0), (171, 0, 0), (191, 0, 0), (215, 0, 0), (239, 0, 0), (255, 23, 23),
  (255, 51, 51), (255, 83, 83), (255, 115, 115), (255, 147, 147), (255, 183, 183), (255, 219, 219),
  (255, 255, 255), (35, 0, 0), (59, 0, 0), (79, 0, 0), (103, 0, 0), (123, 0, 0),
  (143, 7, 7), (163, 23, 23), (183, 43, 43), (203, 63, 63), (223, 83, 83), (239, 111, 111),
  (255, 139, 139), (255, 171, 171), (255, 203, 203), (255, 235, 235), (255, 255, 255), (59, 31, 11),
  (75, 43, 19), (91, 55, 31), (107, 71, 43), (127, 87, 59), (143, 107, 75), (163, 127, 95),
  (179, 147, 115), (199, 167, 135), (215, 191, 155), (235, 215, 179), (255, 239, 207), (95, 63, 23),
  (115, 79, 39), (135, 99, 55), (155, 119, 67), (175, 139, 83), (195, 159, 99), (219, 183, 119),
  (239, 203, 139), (255, 227, 163), (255, 247, 191), (255, 255, 223), (99, 79, 43), (119, 99, 59),
  (143, 119, 75), (163, 139, 95), (187, 159, 115), (207, 183, 135), (227, 203, 159), (251, 227, 183),
  (255, 247, 207), (255, 255, 235), (111, 91, 63), (131, 111, 83), (151, 131, 103), (175, 151, 127),
  (199, 175, 147), (219, 199, 171), (243, 223, 195), (255, 247, 223), (255, 255, 247), (0, 0, 0),
  (0, 0, 0), (0, 0, 0), (0, 0, 0), (0, 0, 0), (0, 0, 0), (0, 0, 0),
  (0, 0, 0)
]

/-- The compiled-in palette of `extract_grass_simple.py` (`PALETTE`),
transcribed entry for entry from the Python list literal. -/
def PALETTE : List RGB := [
  (0, 0, 0), (0, 0, 0), (0, 0, 0), (0, 0, 0), (0, 0, 0), (0, 0, 0),
  (0, 0, 0), (0, 0, 0), (0, 0, 0), (0, 0, 0), (35, 35, 23), (51, 51, 35),
  (67, 67, 47), (83, 83, 63), (99, 99, 75), (115, 115, 91), (131, 131, 111), (151, 151, 131),
  (175, 175, 159), (195, 195, 183), (219, 219, 211), (243, 243, 239), (0, 47, 51), (0, 59, 63),
  (11, 75, 79), (19, 91, 91), (31, 107, 107), (43, 127, 119), (59, 143, 135), (79, 155, 147),
  (95, 171, 159), (115, 187, 171), (135, 199, 183), (159, 215, 195), (183, 231, 211), (207, 247, 227),
  (227, 255, 239), (0, 47, 111), (0, 47, 159), (0, 47, 203), (0, 51, 255), (0, 87, 255),
  (0, 123, 255), (0, 155, 255), (0, 183, 255), (0, 219, 255), (0, 255, 255), (11, 67, 35),
  (15, 91, 47), (19, 111, 63), (23, 131, 75), (31, 151, 87), (39, 171, 99), (51, 187, 115),
  (63, 203, 131), (75, 219, 147), (91, 239, 167), (111, 255, 183), (43, 39, 27), (55, 51, 39),
  (67, 63, 51), (83, 75, 67), (95, 91, 83), (111, 111, 103), (127, 127, 123), (143, 147, 143),
  (159, 167, 163), (179, 187, 183), (199, 207, 203), (219, 227, 223), (0, 43, 0), (0, 63, 0),
  (7, 87, 0), (15, 107, 7), (19, 127, 15), (27, 147, 19), (35, 167, 31), (43, 187, 39),
  (55, 207, 51), (67, 227, 67), (83, 247, 87), (15, 7, 0), (27, 15, 0), (43, 23, 0),
  (55, 31, 0), (67, 43, 0), (83, 55, 0), (99, 67, 7), (115, 83, 15), (131, 99, 23),
  (147, 119, 35), (163, 135, 47), (183, 155, 63), (195, 175, 83), (207, 195, 103), (223, 215, 127),
  (239, 235, 159), (255, 255, 195), (111, 47, 0), (131, 59, 0), (151, 75, 0), (175, 91, 0),
  (191, 107, 7), (215, 127, 19), (235, 147, 35), (255, 171, 51), (255, 195, 75), (255, 219, 103),
  (255, 243, 139), (255, 255, 179), (75, 47, 11), (95, 59, 23), (115, 75, 35), (135, 95, 51),
  (159, 119, 67), (179, 139, 87), (199, 167, 111), (219, 187, 139), (239, 215, 167), (255, 239, 199),
  (255, 255, 227), (51, 31, 0), (63, 39, 0), (79, 51, 0), (95, 63, 7), (111, 75, 15),
  (131, 91, 27), (151, 111, 43), (171, 131, 59), (191, 155, 79), (207, 179, 99), (227, 203, 123),
  (247, 227, 147), (255, 255, 183), (255, 255, 219), (255, 255, 255), (107, 0, 0), (127, 0, 0),
  (151, 0, 0), (171, 0, 0), (191, 0, 0), (215, 0, 0), (239, 0, 0), (255, 23, 23),
  (255, 51, 51), (255, 83, 83), (255, 115, 115), (255, 147, 147), (255, 183, 183), (255, 219, 219),
  (255, 255, 255), (35, 0, 0), (59, 0, 0), (79, 0, 0), (103, 0, 0), (123, 0, 0),
  (143, 7, 7), (163, 23, 23), (183, 43, 43), (203, 63, 63), (223, 83, 83), (239, 111, 111),
  (255, 139, 139), (255, 171, 171), (255, 203, 203), (255, 235, 235), (255, 255, 255), (59, 31, 11),
  (75, 43, 19), (91, 55, 31), (107, 71, 43), (127, 87, 59), (143, 107, 75), (163, 127, 95),
  (179, 147, 115), (199, 167, 135), (215, 191, 155), (235, 215, 179), (255, 239, 207), (95, 63, 23),
  (115, 79, 39), (135, 99, 55), (155, 119, 67), (175, 139, 83), (195, 159, 99), (219, 183, 119),
  (239, 203, 139), (255, 227, 163), (255, 247, 191), (255, 255, 223), (99, 79, 43), (119, 99, 59),
  (143, 119, 75), (163, 139, 95), (187, 159, 115), (207, 183, 135), (227, 203, 159), (251, 227, 183),
  (255, 247, 207), (255, 255, 235), (111, 91, 63), (131, 111, 83), (151, 131, 103), (175, 151, 127),
  (199, 175, 147), (219, 199, 171), (243, 223, 195), (255, 247, 223), (255, 255, 247), (0, 0, 0),
  (0, 0, 0), (0, 0, 0), (0, 0, 0), (0, 0, 0), (0, 0, 0), (0, 0, 0),
  (0, 0, 0)
]


/-- Sprite entry descriptor, fields as parsed from a 16-byte container entry.
`extract_rct2_sprites.py` parses `width`/`height` unsigned (`<H`), while
`extract_grass_simple.py` parses them signed (`<h`); both are carried here
as `Int`. -/
structure Entry where
  offset : Nat
  width : Int
  height : Int
  x_offset : Int
  y_offset : Int
  flags : Nat
deriving DecidableEq

/-- `G1DATExtractor._read_entry_header`: sequential reads after a seek to
`pos`; `offset <I`, `width <H`, `height <H`, `x_offset <h`, `y_offset <h`,
`flags <H` (14 bytes read out of the 16-byte stride). -/
def read_entry_header (bs : List Nat) (pos : Nat) : Option Entry := do
  let off ← readU32 bs pos
  let w ← readU16 bs (pos + 4)
  let h ← readU16 bs (pos + 6)
  let xo ← readI16 bs (pos + 8)
  let yo ← readI16 bs (pos + 10)
  let fl ← readU16 bs (pos + 12)
  pure ⟨off, (w : Int), (h : Int), xo, yo, fl⟩

/-- `extract_grass_simple.read_entry_header`: `offset <I`, `width <h`,
`height <h`, `x_offset <h`, `y_offset <h`, `flags <H`, `zoomed_offset <H`
(16 bytes; the zoomed offset is read and discarded). -/
def read_entry_header_simple (bs : List Nat) (pos : Nat) : Option Entry := do
  let off ← readU32 bs pos
  let w ← readI16 bs (pos + 4)
  let h ← readI16 bs (pos + 6)
  let xo ← readI16 bs (pos + 8)
  let yo ← readI16 bs (pos + 10)
  let fl ← readU16 bs (pos + 12)
  let _zoomed ← readU16 bs (pos + 14)
  pure ⟨off, w, h, xo, yo, fl⟩

/-- The decoded raster: `width × height` RGBA grid, default transparent. -/
structure Raster where
  width : Nat
  height : Nat
  pix : Nat → Nat → Option RGB

/-- Write one opaque pixel into a pixel grid (`pixels[x, y] = (*color, 255)`). -/
def setPix (p : Nat → Nat → Option RGB) (x y : Nat) (c : RGB) :
    Nat → Nat → Option RGB :=
  fun a b => if a = x ∧ b = y then some c else p a b

/-- The opaque-pixel inner loop of `G1DATExtractor.extract_sprite`
(`for _ in range(num_pixels): if x < width: ...`): each in-bounds position
reads one palette byte, resolves it in `RCT2_PALETTE` (an out-of-range
palette index raises, surfacing as `none`), writes the pixel and advances
`x`; once `x` reaches `width` the remaining iterations read nothing.
Returns the final cursor, final `x` and the updated grid. -/
def opaqueRun (bs : List Nat) (width : Nat) (row : Nat) :
    Nat → Nat → Nat → (Nat → Nat → Option RGB) →
    Option (Nat × Nat × (Nat → Nat → Option RGB))
  | 0, pos, x, pix => some (pos, x, pix)
  | n + 1, pos, x, pix =>
    if x < width then
      match readByte bs pos with
      | none => none
      | some pi =>
        match RCT2_PALETTE[pi]? with
        | none => none
        | some c => opaqueRun bs width row n (pos + 1) (x + 1) (setPix pix x row c)
    else
      opaqueRun bs width row n pos x pix

/-- The chunk loop of `G1DATExtractor.extract_sprite`
(`while x < entry['width']:`), fueled: each iteration reads a `chunk_info`
byte; a high bit set marks a transparent run advancing `x` by the low
7 bits; otherwise an opaque run of `chunk_info` pixels follows.  A read
past end of file raises, surfacing as `none`.  The fuel only bounds the
iteration count; `chunkLoopR_fuel` below shows any fuel exceeding the
number of unread bytes gives the same result. -/
def chunkLoopR (bs : List Nat) (width : Nat) (row : Nat) :
    Nat → Nat → Nat → (Nat → Nat → Option RGB) →
    Option (Nat → Nat → Option RGB)
  | 0, _, _, _ => none
  | fuel + 1, pos, x, pix =>
    if x < width then
      match readByte bs pos with
      | none => none
      | some ci =>
        if 128 ≤ ci then
          chunkLoopR bs width row fuel (pos + 1) (x + (ci - 128)) pix
        else
          match opaqueRun bs width row ci (pos + 1) x pix with
          | none => none
          | some (pos', x', pix') => chunkLoopR bs width row fuel pos' x' pix'
    else
      some pix

/-- The row loop of `G1DATExtractor.extract_sprite`
(`for row in range(entry['height']):`): reads the next row-offset `u16` at
the sequential cursor `c`, skips the row when it is the `0xFFFF` sentinel,
otherwise decodes the row's chunk stream at `entry.offset + row_offset` and
restores the cursor.  Arguments: rows remaining, current row index, cursor,
pixel grid. -/
def rowLoop (bs : List Nat) (e : Entry) :
    Nat → Nat → Nat → (Nat → Nat → Option RGB) →
    Option (Nat → Nat → Option RGB)
  | 0, _, _, pix => some pix
  | n + 1, r, c, pix =>
    match readU16 bs c with
    | none => none
    | some ro =>
      if ro = 65535 then
        rowLoop bs e n (r + 1) (c + 2) pix
      else
        match chunkLoopR bs e.width.toNat r (bs.length + 1) (e.offset + ro) 0 pix with
        | none => none
        | some pix' => rowLoop bs e n (r + 1) (c + 2) pix'

/-- Lines 110–160 of `extract_rct2_sprites.py`: allocate a transparent
raster and run the row loop from `entry['offset']` inside `try`; any raised
exception yields `None`. -/
def extract_sprite_data (bs : List Nat) (e : Entry) : Option Raster :=
  match rowLoop bs e e.height.toNat 0 e.offset (fun _ _ => none) with
  | none => none
  | some pix => some ⟨e.width.toNat, e.height.toNat, pix⟩

/-- Lines 106–160 of `extract_rct2_sprites.py`: skip entries with a zero
width or height (`return None`), otherwise decode. -/
def extract_entry (bs : List Nat) (e : Entry) : Option Raster :=
  if e.width = 0 ∨ e.height = 0 then none
  else extract_sprite_data bs e

/-- The mutable state of a `G1DATExtractor`: entry count read by `open`,
and the on-demand header cache `self.entries`. -/
structure G1State where
  num_entries : Nat
  cache : Nat → Option Entry

/-- `G1DATExtractor.open`: read the 4-byte entry count and start with an
empty cache (`[None] * num_entries`). -/
def g1open (bs : List Nat) : Option G1State :=
  (readU32 bs 0).map fun n => ⟨n, fun _ => none⟩

/-- A freshly opened extractor state with entry count `n`. -/
def freshState (n : Nat) : G1State := ⟨n, fun _ => none⟩

/-- Store a header in the cache (`self.entries[index] = ...`). -/
def cacheInsert (c : Nat → Option Entry) (i : Nat) (e : Entry) :
    Nat → Option Entry :=
  fun j => if j = i then some e else c j

/-- `G1DATExtractor.extract_sprite`: out-of-range index returns `None`
without touching the state; a cache miss reads the header at
`4 + index * 16` (a header read past end of file raises `struct.error`
outside any `try`, surfacing as `Except.error`) and caches it; then the
sprite body is decoded.  Returns the result and the updated state. -/
def extract_sprite (bs : List Nat) (s : G1State) (index : Nat) :
    Except Unit (Option Raster) × G1State :=
  if s.num_entries ≤ index then (Except.ok none, s)
  else
    match s.cache index with
    | some e => (Except.ok (extract_entry bs e), s)
    | none =>
      match read_entry_header bs (4 + index * 16) with
      | none => (Except.error (), s)
      | some e =>
          (Except.ok (extract_entry bs e), ⟨s.num_entries, cacheInsert s.cache index e⟩)

/-- Run a sequence of `extract_sprite` calls, threading the state. -/
def runDecodes (bs : List Nat) (s : G1State) : List Nat → G1State
  | [] => s
  | i :: rest => runDecodes bs (extract_sprite bs s i).2 rest

/-- Cache consistency invariant: every cached header equals the header that
`_read_entry_header` parses from the container at that index. -/
def cacheOK (bs : List Nat) (s : G1State) : Prop :=
  ∀ i, s.cache i = none ∨ s.cache i = read_entry_header bs (4 + i * 16)

/-- The pixel-data loop of one chunk of `extract_sprite_simple`
(`for i in range(data_size):`): position `first + i`; only in-bounds
positions read a palette byte (the read sits inside the bounds check).  A
raised read or palette `IndexError` is caught by the surrounding bare
`except`, returning the partial grid with `none` as the continuation
cursor; success returns `some` of the cursor after the run. -/
def runSimple (bs : List Nat) (width : Nat) (row : Nat) (first : Nat) :
    Nat → Nat → Nat → (Nat → Nat → Option RGB) →
    ((Nat → Nat → Option RGB) × Option Nat)
  | 0, _, pos, pix => (pix, some pos)
  | k + 1, i, pos, pix =>
    if first + i < width then
      match readByte bs pos with
      | none => (pix, none)
      | some pi =>
        match PALETTE[pi]? with
        | none => (pix, none)
        | some c =>
            runSimple bs width row first k (i + 1) (pos + 1)
              (setPix pix (first + i) row c)
    else
      runSimple bs width row first k (i + 1) pos pix

/-- The `while True` chunk loop of `extract_sprite_simple`, fueled: each
iteration reads `data_size` and `first_pixel_x`, decodes the run, and stops
when the high bit of `data_size` (end-of-line) was set; any exception
breaks out keeping the partial grid.  `chunkLoopSimple_fuel` below shows
the fuel is irrelevant beyond the number of unread bytes. -/
def chunkLoopSimple (bs : List Nat) (width : Nat) (row : Nat) :
    Nat → Nat → (Nat → Nat → Option RGB) → (Nat → Nat → Option RGB)
  | 0, _, pix => pix
  | fuel + 1, pos, pix =>
    match readByte bs pos with
    | none => pix
    | some ds =>
      match readByte bs (pos + 1) with
      | none => pix
      | some first =>
        match runSimple bs width row first (ds % 128) 0 (pos + 2) pix with
        | (pix', none) => pix'
        | (pix', some pos') =>
            if 128 ≤ ds then pix'
            else chunkLoopSimple bs width row fuel pos' pix'

/-- Lines 86–90 of `extract_grass_simple.py`: read `height` row-offset
`u16`s sequentially; a short read raises `struct.error` with no handler. -/
def readRowOffsets (bs : List Nat) : Nat → Nat → Option (List Nat)
  | 0, _ => some []
  | n + 1, pos => do
    let v ← readU16 bs pos
    let rest ← readRowOffsets bs n (pos + 2)
    pure (v :: rest)

/-- Lines 92–120 of `extract_grass_simple.py`: for each row in order, skip
offsets `0` and `0xFFFF` (empty row), otherwise decode the chunk stream at
`entry.offset + row_offset`. -/
def rowsSimple (bs : List Nat) (off : Nat) (width : Nat) :
    List Nat → Nat → (Nat → Nat → Option RGB) → (Nat → Nat → Option RGB)
  | [], _, pix => pix
  | ro :: rest, r, pix =>
    if ro = 0 ∨ ro = 65535 then
      rowsSimple bs off width rest (r + 1) pix
    else
      rowsSimple bs off width rest (r + 1)
        (chunkLoopSimple bs width r (bs.length + 1) (off + ro) pix)

/-- `extract_sprite_simple`: return `None` when `width <= 0 or height <= 0`;
read the row-offset table (an uncaught `struct.error` there is
`Except.error`); decode every non-sentinel row. -/
def extract_sprite_simple (bs : List Nat) (e : Entry) :
    Except Unit (Option Raster) :=
  if e.width ≤ 0 ∨ e.height ≤ 0 then Except.ok none
  else
    match readRowOffsets bs e.height.toNat e.offset with
    | none => Except.error ()
    | some ros =>
        Except.ok (some ⟨e.width.toNat, e.height.toNat,
          rowsSimple bs e.offset e.width.toNat ros 0 (fun _ _ => none)⟩)

/-- Header fields that `extract_palette_from_g1.py` reads for a palette
sprite at `8 + idx * 16`: `offset <I`, `width <h`, `height <h`,
`x_offset <h`, `y_offset <h` (height and y-offset are unused). -/
def paletteHeader (bs : List Nat) (idx : Nat) : Option (Nat × Int × Int) := do
  let off ← readU32 bs (8 + idx * 16)
  let w ← readI16 bs (8 + idx * 16 + 4)
  let _h ← readI16 bs (8 + idx * 16 + 6)
  let xo ← readI16 bs (8 + idx * 16 + 8)
  let _yo ← readI16 bs (8 + idx * 16 + 10)
  pure (off, w, xo)

/-- Update one palette cell (`palette[palette_idx] = (r, g, b)`). -/
def palSet (pal : Nat → RGB) (j : Nat) (c : RGB) : Nat → RGB :=
  fun a => if a = j then c else pal a

/-- The copy loop of `extract_palette_from_g1.py` (`for i in range(width):`):
read one RGB triple per iteration (a short read raises, surfacing as
`none`), then store it at destination `x_offset + i` only when that
destination lies in `[0, 256)`.  Arguments: triples remaining, current `i`,
cursor, palette. -/
def palCopyLoop (bs : List Nat) (x_offset : Int) :
    Nat → Nat → Nat → (Nat → RGB) → Option (Nat → RGB)
  | 0, _, _, pal => some pal
  | k + 1, i, pos, pal =>
    match rgbAt bs pos with
    | none => none
    | some c =>
      if 0 ≤ x_offset + i ∧ x_offset + i < 256 then
        palCopyLoop bs x_offset k (i + 1) (pos + 3)
          (palSet pal (x_offset + i).toNat c)
      else
        palCopyLoop bs x_offset k (i + 1) (pos + 3) pal

/-- Processing of one palette sprite in the loop of
`extract_palette_from_g1.py`: read its header; `continue` when
`width <= 0`; otherwise copy `width` triples from the sprite's data
offset. -/
def paletteSpriteStep (bs : List Nat) (idx : Nat) (pal : Nat → RGB) :
    Option (Nat → RGB) :=
  match paletteHeader bs idx with
  | none => none
  | some (off, w, xo) =>
    if w ≤ 0 then some pal
    else palCopyLoop bs xo w.toNat 0 off pal

/-- Look up one pixel of an optional raster (for stating concrete decode
results). -/
def pixAt (o : Option Raster) (x y : Nat) : Option (Option RGB) :=
  match o with
  | none => none
  | some r => some (r.pix x y)

/-- Collapse the result of `extract_sprite_simple`: an escaped exception
produces no raster. -/
def exceptRaster (r : Except Unit (Option Raster)) : Option Raster :=
  match r with
  | Except.ok o => o
  | Except.error _ => none

/-- Modelled from the spec (section 4.2) for comparison with the source
decoder, claim C6: an opaque run of length `n` always consumes `n`
palette-index bytes from the stream, emitting only the positions below
`width` and dropping the rest.  The source (`extract_sprite_simple`) reads
the palette byte inside the bounds check instead. -/
def runSimpleClaimed (bs : List Nat) (width : Nat) (row : Nat) (first : Nat) :
    Nat → Nat → Nat → (Nat → Nat → Option RGB) →
    ((Nat → Nat → Option RGB) × Option Nat)
  | 0, _, pos, pix => (pix, some pos)
  | k + 1, i, pos, pix =>
    match readByte bs pos with
    | none => (pix, none)
    | some pi =>
      if first + i < width then
        match PALETTE[pi]? with
        | none => (pix, none)
        | some c =>
            runSimpleClaimed bs width row first k (i + 1) (pos + 1)
              (setPix pix (first + i) row c)
      else
        runSimpleClaimed bs width row first k (i + 1) (pos + 1) pix

/-- Modelled from the spec for comparison, claim C6: the chunk loop of
`extract_sprite_simple` with the claimed always-consuming run decoding. -/
def chunkLoopSimpleClaimed (bs : List Nat) (width : Nat) (row : Nat) :
    Nat → Nat → (Nat → Nat → Option RGB) → (Nat → Nat → Option RGB)
  | 0, _, pix => pix
  | fuel + 1, pos, pix =>
    match readByte bs pos with
    | none => pix
    | some ds =>
      match readByte bs (pos + 1) with
      | none => pix
      | some first =>
        match runSimpleClaimed bs width row first (ds % 128) 0 (pos + 2) pix with
        | (pix', none) => pix'
        | (pix', some pos') =>
            if 128 ≤ ds then pix'
            else chunkLoopSimpleClaimed bs width row fuel pos' pix'

/-- A well-formed two-entry container used as a concrete witness: entry 0
(offset 36) has a sentinel row, entry 1 (offset 38) has its row-offset
table cut off by the end of the file. -/
def bsW : List Nat :=
  [2, 0, 0, 0,
   36, 0, 0, 0, 1, 0, 1, 0, 0, 0, 0, 0, 0, 0, 0, 0,
   38, 0, 0, 0, 1, 0, 1, 0, 0, 0, 0, 0, 0, 0, 0, 0,
   255, 255]

/-- The witness container for claim C9: palette-sprite 0's header sits at
offset 8 and declares `offset 24, width 2, x_offset -1`; two raw RGB
triples `(1,2,3)` and `(4,5,6)` sit at offset 24. -/
def bsPal : List Nat :=
  [0, 0, 0, 0, 0, 0, 0, 0,
   24, 0, 0, 0, 2, 0, 1, 0, 255, 255, 0, 0,
   0, 0, 0, 0,
   1, 2, 3, 4, 5, 6]


theorem readByte_none_of_le {bs : List Nat} {pos : Nat} (h : bs.length ≤ pos) :
    readByte bs pos = none := by
  simp [readByte, List.getElem?_eq_none h]

theorem lt_of_readByte_some {bs : List Nat} {pos b : Nat}
    (h : readByte bs pos = some b) : pos < bs.length := by
  by_contra hc
  rw [readByte_none_of_le (Nat.le_of_not_lt hc)] at h
  exact Option.noConfusion h

theorem readByte_some_of_lt {bs : List Nat} {pos : Nat} (h : pos < bs.length) :
    ∃ b, readByte bs pos = some b := by
  refine ⟨bs[pos] % 256, ?_⟩
  simp [readByte, List.getElem?_eq_getElem h]

theorem readU16_none_of_short {bs : List Nat} {pos : Nat}
    (h : bs.length < pos + 2) : readU16 bs pos = none := by
  have h1 : readByte bs (pos + 1) = none := readByte_none_of_le (by omega)
  unfold readU16
  rw [h1]
  cases readByte bs pos <;> rfl

theorem opaqueRun_pos_le {bs : List Nat} {w row : Nat} :
    ∀ {n pos x pix pos' x' pix'},
      opaqueRun bs w row n pos x pix = some (pos', x', pix') → pos ≤ pos' := by
  intro n
  induction n with
  | zero =>
    intro pos x pix pos' x' pix' h
    simp [opaqueRun] at h
    omega
  | succ n ih =>
    intro pos x pix pos' x' pix' h
    unfold opaqueRun at h
    by_cases hx : x < w
    · rw [if_pos hx] at h
      split at h
      · exact Option.noConfusion h
      · split at h
        · exact Option.noConfusion h
        · have := ih h; omega
    · rw [if_neg hx] at h
      exact ih h

theorem opaqueRun_consume {bs : List Nat} {w row : Nat} :
    ∀ {n pos x pix pos' x' pix'},
      opaqueRun bs w row n pos x pix = some (pos', x', pix') →
      pos' = pos + min n (w - x) ∧ x' = x + min n (w - x) := by
  intro n
  induction n with
  | zero =>
    intro pos x pix pos' x' pix' h
    simp [opaqueRun] at h
    omega
  | succ n ih =>
    intro pos x pix pos' x' pix' h
    unfold opaqueRun at h
    by_cases hx : x < w
    · rw [if_pos hx] at h
      split at h
      · exact Option.noConfusion h
      · split at h
        · exact Option.noConfusion h
        · have := ih h; omega
    · rw [if_neg hx] at h
      have := ih h; omega

theorem opaqueRun_row_preserve {bs : List Nat} {w row : Nat} :
    ∀ {n pos x pix pos' x' pix'},
      opaqueRun bs w row n pos x pix = some (pos', x', pix') →
      ∀ a b, b ≠ row → pix' a b = pix a b := by
  intro n
  induction n with
  | zero =>
    intro pos x pix pos' x' pix' h a b _
    simp [opaqueRun] at h
    rw [h.2.2]
  | succ n ih =>
    intro pos x pix pos' x' pix' h a b hb
    unfold opaqueRun at h
    by_cases hx : x < w
    · rw [if_pos hx] at h
      split at h
      · exact Option.noConfusion h
      · split at h
        · exact Option.noConfusion h
        · rw [ih h a b hb]
          simp [setPix]
          intro _ hbr
          exact absurd hbr hb
    · rw [if_neg hx] at h
      exact ih h a b hb

theorem opaqueRun_col_preserve {bs : List Nat} {w row : Nat} :
    ∀ {n pos x pix pos' x' pix'},
      opaqueRun bs w row n pos x pix = some (pos', x', pix') →
      ∀ a b, w ≤ a → pix' a b = pix a b := by
  intro n
  induction n with
  | zero =>
    intro pos x pix pos' x' pix' h a b _
    simp [opaqueRun] at h
    rw [h.2.2]
  | succ n ih =>
    intro pos x pix pos' x' pix' h a b ha
    unfold opaqueRun at h
    by_cases hx : x < w
    · rw [if_pos hx] at h
      split at h
      · exact Option.noConfusion h
      · split at h
        · exact Option.noConfusion h
        · rw [ih h a b ha]
          simp [setPix]
          intro hax
          omega
    · rw [if_neg hx] at h
      exact ih h a b ha

theorem chunkLoopR_row_preserve {bs : List Nat} {w row : Nat} :
    ∀ {fuel pos x pix pix'},
      chunkLoopR bs w row fuel pos x pix = some pix' →
      ∀ a b, b ≠ row → pix' a b = pix a b := by
  intro fuel
  induction fuel with
  | zero => intro pos x pix pix' h; exact Option.noConfusion h
  | succ fuel ih =>
    intro pos x pix pix' h a b hb
    unfold chunkLoopR at h
    by_cases hx : x < w
    · rw [if_pos hx] at h
      split at h
      · exact Option.noConfusion h
      · split at h
        · exact ih h a b hb
        · split at h
          · exact Option.noConfusion h
          · rename_i pos' x' pix₁ heq
            rw [ih h a b hb]
            exact opaqueRun_row_preserve heq a b hb
    · rw [if_neg hx] at h
      cases h
      rfl

theorem chunkLoopR_col_preserve {bs : List Nat} {w row : Nat} :
    ∀ {fuel pos x pix pix'},
      chunkLoopR bs w row fuel pos x pix = some pix' →
      ∀ a b, w ≤ a → pix' a b = pix a b := by
  intro fuel
  induction fuel with
  | zero => intro pos x pix pix' h; exact Option.noConfusion h
  | succ fuel ih =>
    intro pos x pix pix' h a b ha
    unfold chunkLoopR at h
    by_cases hx : x < w
    · rw [if_pos hx] at h
      split at h
      · exact Option.noConfusion h
      · split at h
        · exact ih h a b ha
        · split at h
          · exact Option.noConfusion h
          · rename_i pos' x' pix₁ heq
            rw [ih h a b ha]
            exact opaqueRun_col_preserve heq a b ha
    · rw [if_neg hx] at h
      cases h
      rfl

theorem chunkLoopR_fuel {bs : List Nat} {w row : Nat} :
    ∀ f g pos x pix, bs.length - pos < f → bs.length - pos < g →
      chunkLoopR bs w row f pos x pix = chunkLoopR bs w row g pos x pix := by
  intro f
  induction f with
  | zero => intro g pos x pix hf _; omega
  | succ f ih =>
    intro g pos x pix hf hg
    cases g with
    | zero => omega
    | succ g =>
      by_cases hx : x < w
      · cases hb : readByte bs pos with
        | none => simp only [chunkLoopR, if_pos hx, hb]
        | some ci =>
          have hpos : pos < bs.length := lt_of_readByte_some hb
          by_cases hci : 128 ≤ ci
          · simp only [chunkLoopR, if_pos hx, hb, if_pos hci]
            exact ih g (pos + 1) (x + (ci - 128)) pix (by omega) (by omega)
          · simp only [chunkLoopR, if_pos hx, hb, if_neg hci]
            cases ho : opaqueRun bs w row ci (pos + 1) x pix with
            | none => simp only [ho]
            | some t =>
              obtain ⟨pos', x', pix'⟩ := t
              have hle : pos + 1 ≤ pos' := opaqueRun_pos_le ho
              simp only [ho]
              exact ih g pos' x' pix' (by omega) (by omega)
      · simp only [chunkLoopR, if_neg hx]

theorem rowLoop_row_lt_preserve {bs : List Nat} {e : Entry} :
    ∀ {n r c pix pix'},
      rowLoop bs e n r c pix = some pix' →
      ∀ a b, b < r → pix' a b = pix a b := by
  intro n
  induction n with
  | zero =>
    intro r c pix pix' h a b _
    cases h
    rfl
  | succ n ih =>
    intro r c pix pix' h a b hb
    unfold rowLoop at h
    split at h
    · exact Option.noConfusion h
    · split at h
      · exact ih h a b (by omega)
      · split at h
        · exact Option.noConfusion h
        · rename_i pix₁ heq
          rw [ih h a b (by omega)]
          exact chunkLoopR_row_preserve heq a b (by omega)

theorem rowLoop_col_preserve {bs : List Nat} {e : Entry} :
    ∀ {n r c pix pix'},
      rowLoop bs e n r c pix = some pix' →
      ∀ a b, e.width.toNat ≤ a → pix' a b = pix a b := by
  intro n
  induction n with
  | zero =>
    intro r c pix pix' h a b _
    cases h
    rfl
  | succ n ih =>
    intro r c pix pix' h a b ha
    unfold rowLoop at h
    split at h
    · exact Option.noConfusion h
    · split at h
      · exact ih h a b ha
      · split at h
        · exact Option.noConfusion h
        · rename_i pix₁ heq
          rw [ih h a b ha]
          exact chunkLoopR_col_preserve heq a b ha

theorem rowLoop_sentinel {bs : List Nat} {e : Entry} :
    ∀ {n r c pix pix'} (k : Nat),
      rowLoop bs e n r c pix = some pix' →
      k < n → readU16 bs (c + 2 * k) = some 65535 →
      ∀ a, pix' a (r + k) = pix a (r + k) := by
  intro n
  induction n with
  | zero => intro r c pix pix' k _ hk; omega
  | succ n ih =>
    intro r c pix pix' k h hk hsent a
    unfold rowLoop at h
    cases k with
    | zero =>
      simp only [Nat.mul_zero, Nat.add_zero] at hsent
      rw [hsent] at h
      simp only [if_pos rfl] at h
      have := rowLoop_row_lt_preserve h a r (by omega)
      simpa using this
    | succ k =>
      have hs2 : readU16 bs (c + 2 + 2 * k) = some 65535 := by
        rw [show c + 2 + 2 * k = c + 2 * (k + 1) by omega]
        exact hsent
      split at h
      · exact Option.noConfusion h
      · split at h
        · have := ih k h (by omega) hs2 a
          rw [show r + 1 + k = r + (k + 1) by omega] at this
          exact this
        · split at h
          · exact Option.noConfusion h
          · rename_i pix₁ heq
            have := ih k h (by omega) hs2 a
            rw [show r + 1 + k = r + (k + 1) by omega] at this
            rw [this]
            exact chunkLoopR_row_preserve heq a (r + (k + 1)) (by omega)

theorem rowLoop_truncated {bs : List Nat} {e : Entry} :
    ∀ {n r c pix}, 0 < n → bs.length < c + 2 * n →
      rowLoop bs e n r c pix = none := by
  intro n
  induction n with
  | zero => intro r c pix h; omega
  | succ n ih =>
    intro r c pix _ hlen
    unfold rowLoop
    cases n with
    | zero =>
      rw [readU16_none_of_short (by omega)]
    | succ n =>
      cases hu : readU16 bs c with
      | none => rfl
      | some ro =>
        simp only
        split
        · exact ih (by omega) (by omega)
        · split
          · rfl
          · exact ih (by omega) (by omega)

theorem runSimple_pos_le {bs : List Nat} {w row first : Nat} :
    ∀ {k i pos pix pix' pos'},
      runSimple bs w row first k i pos pix = (pix', some pos') → pos ≤ pos' := by
  intro k
  induction k with
  | zero =>
    intro i pos pix pix' pos' h
    simp [runSimple] at h
    omega
  | succ k ih =>
    intro i pos pix pix' pos' h
    unfold runSimple at h
    split at h
    · split at h
      · simp at h
      · split at h
        · simp at h
        · have := ih h; omega
    · exact ih h

theorem runSimple_consume {bs : List Nat} {w row first : Nat} :
    ∀ {k i pos pix pix' pos'},
      runSimple bs w row first k i pos pix = (pix', some pos') →
      pos' = pos + (min (i + k) (w - first) - min i (w - first)) := by
  intro k
  induction k with
  | zero =>
    intro i pos pix pix' pos' h
    simp [runSimple] at h
    omega
  | succ k ih =>
    intro i pos pix pix' pos' h
    unfold runSimple at h
    split at h
    · rename_i hin
      split at h
      · simp at h
      · split at h
        · simp at h
        · have := ih h; omega
    · rename_i hin
      have := ih h
      omega

theorem runSimple_row_preserve {bs : List Nat} {w row first : Nat} :
    ∀ {k i pos pix pix' res},
      runSimple bs w row first k i pos pix = (pix', res) →
      ∀ a b, b ≠ row → pix' a b = pix a b := by
  intro k
  induction k with
  | zero =>
    intro i pos pix pix' res h a b _
    simp [runSimple] at h
    rw [h.1]
  | succ k ih =>
    intro i pos pix pix' res h a b hb
    unfold runSimple at h
    split at h
    · split at h
      · cases h; rfl
      · split at h
        · cases h; rfl
        · rw [ih h a b hb]
          simp [setPix]
          intro _ hbr
          exact absurd hbr hb
    · exact ih h a b hb

theorem runSimple_col_preserve {bs : List Nat} {w row first : Nat} :
    ∀ {k i pos pix pix' res},
      runSimple bs w row first k i pos pix = (pix', res) →
      ∀ a b, w ≤ a → pix' a b = pix a b := by
  intro k
  induction k with
  | zero =>
    intro i pos pix pix' res h a b _
    simp [runSimple] at h
    rw [h.1]
  | succ k ih =>
    intro i pos pix pix' res h a b ha
    unfold runSimple at h
    split at h
    · rename_i hin
      split at h
      · cases h; rfl
      · split at h
        · cases h; rfl
        · rw [ih h a b ha]
          simp [setPix]
          intro hax
          omega
    · exact ih h a b ha

theorem chunkLoopSimple_row_preserve {bs : List Nat} {w row : Nat} :
    ∀ fuel pos pix a b, b ≠ row →
      chunkLoopSimple bs w row fuel pos pix a b = pix a b := by
  intro fuel
  induction fuel with
  | zero => intro pos pix a b _; rfl
  | succ fuel ih =>
    intro pos pix a b hb
    unfold chunkLoopSimple
    cases hb0 : readByte bs pos with
    | none => rfl
    | some ds =>
      simp only
      cases hb1 : readByte bs (pos + 1) with
      | none => rfl
      | some first =>
        simp only
        cases hr : runSimple bs w row first (ds % 128) 0 (pos + 2) pix with
        | mk pix' res =>
          cases res with
          | none => exact runSimple_row_preserve hr a b hb
          | some pos' =>
            simp only
            split
            · exact runSimple_row_preserve hr a b hb
            · rw [ih pos' pix' a b hb]
              exact runSimple_row_preserve hr a b hb

theorem chunkLoopSimple_col_preserve {bs : List Nat} {w row : Nat} :
    ∀ fuel pos pix a b, w ≤ a →
      chunkLoopSimple bs w row fuel pos pix a b = pix a b := by
  intro fuel
  induction fuel with
  | zero => intro pos pix a b _; rfl
  | succ fuel ih =>
    intro pos pix a b ha
    unfold chunkLoopSimple
    cases hb0 : readByte bs pos with
    | none => rfl
    | some ds =>
      simp only
      cases hb1 : readByte bs (pos + 1) with
      | none => rfl
      | some first =>
        simp only
        cases hr : runSimple bs w row first (ds % 128) 0 (pos + 2) pix with
        | mk pix' res =>
          cases res with
          | none => exact runSimple_col_preserve hr a b ha
          | some pos' =>
            simp only
            split
            · exact runSimple_col_preserve hr a b ha
            · rw [ih pos' pix' a b ha]
              exact runSimple_col_preserve hr a b ha

theorem chunkLoopSimple_fuel {bs : List Nat} {w row : Nat} :
    ∀ f g pos pix, bs.length - pos < f → bs.length - pos < g →
      chunkLoopSimple bs w row f pos pix = chunkLoopSimple bs w row g pos pix := by
  intro f
  induction f with
  | zero => intro g pos pix hf _; omega
  | succ f ih =>
    intro g pos pix hf hg
    cases g with
    | zero => omega
    | succ g =>
      cases hb0 : readByte bs pos with
      | none => simp only [chunkLoopSimple, hb0]
      | some ds =>
        have hpos : pos < bs.length := lt_of_readByte_some hb0
        cases hb1 : readByte bs (pos + 1) with
        | none => simp only [chunkLoopSimple, hb0, hb1]
        | some first =>
          simp only [chunkLoopSimple, hb0, hb1]
          cases hr : runSimple bs w row first (ds % 128) 0 (pos + 2) pix with
          | mk pix' res =>
            cases res with
            | none => simp only [hr]
            | some pos' =>
              have hle : pos + 2 ≤ pos' := runSimple_pos_le hr
              simp only [hr]
              split
              · rfl
              · exact ih g pos' pix' (by omega) (by omega)

theorem rowsSimple_row_lt_preserve {bs : List Nat} {off w : Nat} :
    ∀ (l : List Nat) (r0 : Nat) pix a b, b < r0 →
      rowsSimple bs off w l r0 pix a b = pix a b := by
  intro l
  induction l with
  | nil => intro r0 pix a b _; rfl
  | cons ro rest ih =>
    intro r0 pix a b hb
    unfold rowsSimple
    split
    · exact ih (r0 + 1) pix a b (by omega)
    · rw [ih (r0 + 1) _ a b (by omega)]
      exact chunkLoopSimple_row_preserve (bs.length + 1) (off + ro) pix a b (by omega)

theorem rowsSimple_col_preserve {bs : List Nat} {off w : Nat} :
    ∀ (l : List Nat) (r0 : Nat) pix a b, w ≤ a →
      rowsSimple bs off w l r0 pix a b = pix a b := by
  intro l
  induction l with
  | nil => intro r0 pix a b _; rfl
  | cons ro rest ih =>
    intro r0 pix a b ha
    unfold rowsSimple
    split
    · exact ih (r0 + 1) pix a b ha
    · rw [ih (r0 + 1) _ a b ha]
      exact chunkLoopSimple_col_preserve (bs.length + 1) (off + ro) pix a b ha

theorem rowsSimple_sentinel {bs : List Nat} {off w : Nat} :
    ∀ (l : List Nat) (k : Nat) {ro : Nat} (r0 : Nat) pix,
      l[k]? = some ro → (ro = 0 ∨ ro = 65535) →
      ∀ a, rowsSimple bs off w l r0 pix a (r0 + k) = pix a (r0 + k) := by
  intro l
  induction l with
  | nil => intro k ro r0 pix hget _; simp at hget
  | cons h0 rest ih =>
    intro k ro r0 pix hget hsent a
    cases k with
    | zero =>
      simp at hget
      unfold rowsSimple
      rw [if_pos (by omega)]
      simpa using rowsSimple_row_lt_preserve rest (r0 + 1) pix a r0 (by omega)
    | succ k =>
      simp at hget
      unfold rowsSimple
      split
      · have hrec := ih k (r0 + 1) pix hget hsent a
        rw [show r0 + 1 + k = r0 + (k + 1) by omega] at hrec
        exact hrec
      · have hrec := ih k (r0 + 1)
          (chunkLoopSimple bs w r0 (bs.length + 1) (off + h0) pix) hget hsent a
        rw [show r0 + 1 + k = r0 + (k + 1) by omega] at hrec
        rw [hrec]
        exact chunkLoopSimple_row_preserve (bs.length + 1) (off + h0) pix a
          (r0 + (k + 1)) (by omega)

theorem readRowOffsets_get {bs : List Nat} :
    ∀ {n pos l}, readRowOffsets bs n pos = some l →
      ∀ k, k < n → l[k]? = readU16 bs (pos + 2 * k) := by
  intro n
  induction n with
  | zero => intro pos l _ k hk; omega
  | succ n ih =>
    intro pos l h k hk
    unfold readRowOffsets at h
    cases hu : readU16 bs pos with
    | none => rw [hu] at h; simp at h
    | some v =>
      rw [hu] at h
      cases hr : readRowOffsets bs n (pos + 2) with
      | none => rw [hr] at h; simp at h
      | some rest =>
        rw [hr] at h
        simp at h
        subst h
        cases k with
        | zero => simpa using hu.symm
        | succ k =>
          have := ih hr k (by omega)
          simpa [show pos + 2 + 2 * k = pos + 2 * (k + 1) by omega] using this

theorem readRowOffsets_length {bs : List Nat} :
    ∀ {n pos l}, readRowOffsets bs n pos = some l → l.length = n := by
  intro n
  induction n with
  | zero => intro pos l h; simp [readRowOffsets] at h; simp [h.symm]
  | succ n ih =>
    intro pos l h
    unfold readRowOffsets at h
    cases hu : readU16 bs pos with
    | none => rw [hu] at h; simp at h
    | some v =>
      rw [hu] at h
      cases hr : readRowOffsets bs n (pos + 2) with
      | none => rw [hr] at h; simp at h
      | some rest =>
        rw [hr] at h
        simp at h
        subst h
        simp [ih hr]

theorem extract_sprite_num_entries {bs : List Nat} {s : G1State} {i : Nat} :
    (extract_sprite bs s i).2.num_entries = s.num_entries := by
  unfold extract_sprite
  split
  · rfl
  · split
    · rfl
    · split
      · rfl
      · rfl

theorem extract_sprite_eq_fresh {bs : List Nat} {s : G1State} {i : Nat}
    (hOK : cacheOK bs s) :
    (extract_sprite bs s i).1 = (extract_sprite bs (freshState s.num_entries) i).1 := by
  unfold extract_sprite freshState
  by_cases hi : s.num_entries ≤ i
  · rw [if_pos hi]
    simp only [if_pos hi]
  · rw [if_neg hi]
    simp only [if_neg hi]
    cases hc : s.cache i with
    | none =>
      cases hh : read_entry_header bs (4 + i * 16) with
      | none => simp only [hh]
      | some e => simp only [hh]
    | some e =>
      have := hOK i
      rw [hc] at this
      rcases this with h | h
      · exact Option.noConfusion h
      · rw [← h]

theorem extract_sprite_cacheOK {bs : List Nat} {s : G1State} {i : Nat}
    (hOK : cacheOK bs s) : cacheOK bs (extract_sprite bs s i).2 := by
  unfold extract_sprite
  split
  · exact hOK
  · cases hc : s.cache i with
    | some e => simpa [hc] using hOK
    | none =>
      simp only [hc]
      cases hh : read_entry_header bs (4 + i * 16) with
      | none => exact hOK
      | some e =>
        intro j
        by_cases hj : j = i
        · right
          simp [cacheInsert, hj, hh]
        · have := hOK j
          simpa [cacheInsert, hj] using this

theorem runDecodes_num_entries {bs : List Nat} :
    ∀ (js : List Nat) (s : G1State),
      (runDecodes bs s js).num_entries = s.num_entries := by
  intro js
  induction js with
  | nil => intro s; rfl
  | cons j rest ih =>
    intro s
    unfold runDecodes
    rw [ih]
    exact extract_sprite_num_entries

theorem runDecodes_cacheOK {bs : List Nat} :
    ∀ (js : List Nat) (s : G1State), cacheOK bs s →
      cacheOK bs (runDecodes bs s js) := by
  intro js
  induction js with
  | nil => intro s h; exact h
  | cons j rest ih =>
    intro s h
    exact ih _ (extract_sprite_cacheOK h)

theorem rgbAt_isSome {bs : List Nat} {pos : Nat} (h : pos + 3 ≤ bs.length) :
    ∃ c, rgbAt bs pos = some c := by
  obtain ⟨r, hr⟩ := readByte_some_of_lt (show pos < bs.length by omega)
  obtain ⟨g, hg⟩ := readByte_some_of_lt (show pos + 1 < bs.length by omega)
  obtain ⟨b, hb⟩ := readByte_some_of_lt (show pos + 2 < bs.length by omega)
  exact ⟨(r, g, b), by simp [rgbAt, hr, hg, hb]⟩

theorem palCopyLoop_isSome {bs : List Nat} {xo : Int} :
    ∀ {k i pos pal}, pos + 3 * k ≤ bs.length →
      (palCopyLoop bs xo k i pos pal).isSome = true := by
  intro k
  induction k with
  | zero => intro i pos pal _; rfl
  | succ k ih =>
    intro i pos pal hlen
    obtain ⟨c, hc⟩ := rgbAt_isSome (show pos + 3 ≤ bs.length by omega)
    unfold palCopyLoop
    rw [hc]
    simp only
    split
    · exact ih (by omega)
    · exact ih (by omega)

theorem palCopyLoop_outside {bs : List Nat} {xo : Int} :
    ∀ {k i pos pal pal'},
      palCopyLoop bs xo k i pos pal = some pal' →
      ∀ j : Nat, ((j : Int) < xo + i ∨ xo + i + k ≤ (j : Int)) →
        pal' j = pal j := by
  intro k
  induction k with
  | zero =>
    intro i pos pal pal' h j _
    simp [palCopyLoop] at h
    rw [h]
  | succ k ih =>
    intro i pos pal pal' h j hj
    unfold palCopyLoop at h
    split at h
    · exact Option.noConfusion h
    · split at h
      · rename_i hin
        have hout : (j : Int) < xo + (i + 1 : Nat) ∨ xo + (i + 1 : Nat) + k ≤ (j : Int) := by
          push_cast
          push_cast at hj
          omega
        rw [ih h j hout]
        have hne : j ≠ (xo + i).toNat := by
          push_cast at hj
          omega
        simp [palSet, hne]
      · rename_i hin
        have hout : (j : Int) < xo + (i + 1 : Nat) ∨ xo + (i + 1 : Nat) + k ≤ (j : Int) := by
          push_cast
          push_cast at hj
          omega
        exact ih h j hout

theorem palCopyLoop_ge256 {bs : List Nat} {xo : Int} :
    ∀ {k i pos pal pal'},
      palCopyLoop bs xo k i pos pal = some pal' →
      ∀ j : Nat, 256 ≤ j → pal' j = pal j := by
  intro k
  induction k with
  | zero =>
    intro i pos pal pal' h j _
    simp [palCopyLoop] at h
    rw [h]
  | succ k ih =>
    intro i pos pal pal' h j hj
    unfold palCopyLoop at h
    split at h
    · exact Option.noConfusion h
    · split at h
      · rename_i hin
        rw [ih h j hj]
        have hne : j ≠ (xo + i).toNat := by omega
        simp [palSet, hne]
      · exact ih h j hj

theorem palCopyLoop_inside {bs : List Nat} {xo : Int} :
    ∀ {k i pos pal pal'},
      palCopyLoop bs xo k i pos pal = some pal' →
      ∀ j : Nat, j < 256 → xo + i ≤ (j : Int) → (j : Int) < xo + i + k →
        ∃ c, rgbAt bs (pos + 3 * ((j : Int) - (xo + i)).toNat) = some c ∧
          pal' j = c := by
  intro k
  induction k with
  | zero => intro i pos pal pal' _ j _ h1 h2; omega
  | succ k ih =>
    intro i pos pal pal' h j hj256 hlo hhi
    unfold palCopyLoop at h
    split at h
    · exact Option.noConfusion h
    · rename_i c0 hc0
      split at h
      · rename_i hin
        by_cases hje : (j : Int) = xo + i
        · refine ⟨c0, ?_, ?_⟩
          · have : ((j : Int) - (xo + i)).toNat = 0 := by omega
            rw [this]
            simpa using hc0
          · have hout : (j : Int) < xo + (i + 1 : Nat) ∨ xo + (i + 1 : Nat) + k ≤ (j : Int) := by
              push_cast
              omega
            rw [palCopyLoop_outside h j hout]
            have hjeq : j = (xo + i).toNat := by omega
            simp [palSet, hjeq]
        · have hlo' : xo + (i + 1 : Nat) ≤ (j : Int) := by push_cast; omega
          have hhi' : (j : Int) < xo + (i + 1 : Nat) + k := by push_cast; omega
          obtain ⟨c, hrgb, hpal⟩ := ih h j hj256 hlo' hhi'
          refine ⟨c, ?_, hpal⟩
          have harith : pos + 3 + 3 * ((j : Int) - (xo + (i + 1 : Nat))).toNat
              = pos + 3 * ((j : Int) - (xo + i)).toNat := by
            push_cast
            omega
          rw [← harith]
          exact hrgb
      · rename_i hin
        have hje : (j : Int) ≠ xo + i := by
          intro hcontra
          exact hin ⟨by omega, by omega⟩
        have hlo' : xo + (i + 1 : Nat) ≤ (j : Int) := by push_cast; omega
        have hhi' : (j : Int) < xo + (i + 1 : Nat) + k := by push_cast; omega
        obtain ⟨c, hrgb, hpal⟩ := ih h j hj256 hlo' hhi'
        refine ⟨c, ?_, hpal⟩
        have harith : pos + 3 + 3 * ((j : Int) - (xo + (i + 1 : Nat))).toNat
            = pos + 3 * ((j : Int) - (xo + i)).toNat := by
          push_cast
          omega
        rw [← harith]
        exact hrgb

/-- Claim C1 (code_bug): the spec requires a 256-entry palette so that every
palette byte is in bounds, and the source's own comment says `256 colors`,
but both transcribed palette literals contain exactly 217 entries; looking
up palette index 217 is out of bounds (`none`), and a sprite whose opaque
run contains the palette byte 217 makes `extract_sprite` raise an
`IndexError` internally and return `None`. -/
theorem C1_palette_has_217_entries :
    RCT2_PALETTE.length = 217 ∧ PALETTE.length = 217 ∧
    RCT2_PALETTE[217]? = none ∧
    extract_sprite_data [2, 0, 1, 217] ⟨0, 1, 1, 0, 0, 0⟩ = none := by
  refine ⟨rfl, rfl, rfl, rfl⟩

/-- Claim C2 (confirmed): the two RLE decoders disagree.  On the container
byte source `[2, 0, 129, 0, 1, 10]` with the entry descriptor
`offset 0, width 2, height 1`, `G1DATExtractor`'s decoder reads the run
header `0x81` as a one-pixel transparent run and leaves pixel `(0,0)`
transparent while coloring pixel `(1,0)`, whereas `extract_sprite_simple`
reads `0x81` as an end-of-row marker with start-x byte `0` and colors pixel
`(0,0)` while leaving `(1,0)` transparent: the decoded rasters differ. -/
theorem C2_decoders_disagree :
    pixAt (extract_sprite_data [2, 0, 129, 0, 1, 10] ⟨0, 2, 1, 0, 0, 0⟩) 0 0
      = some none ∧
    pixAt (exceptRaster
        (extract_sprite_simple [2, 0, 129, 0, 1, 10] ⟨0, 2, 1, 0, 0, 0⟩)) 0 0
      = some (some (0, 0, 0)) ∧
    pixAt (extract_sprite_data [2, 0, 129, 0, 1, 10] ⟨0, 2, 1, 0, 0, 0⟩) 1 0
      = some (some (35, 35, 23)) ∧
    pixAt (exceptRaster
        (extract_sprite_simple [2, 0, 129, 0, 1, 10] ⟨0, 2, 1, 0, 0, 0⟩)) 1 0
      = some none ∧
    pixAt (extract_sprite_data [2, 0, 129, 0, 1, 10] ⟨0, 2, 1, 0, 0, 0⟩) 0 0
      ≠ pixAt (exceptRaster
        (extract_sprite_simple [2, 0, 129, 0, 1, 10] ⟨0, 2, 1, 0, 0, 0⟩)) 0 0 := by
  refine ⟨rfl, rfl, rfl, rfl, by decide⟩

/-- Claim C3 counterexample: on the container `[2, 0]`, truncated in the
middle of the row-offset table of a `width 1, height 2` sprite,
`extract_sprite_simple` raises an uncaught `struct.error` (an exception
escaping the decoder) instead of returning a failure result. -/
theorem C3_simple_crashes_on_truncated_table :
    extract_sprite_simple [2, 0] ⟨0, 1, 2, 0, 0, 0⟩ = Except.error () := by
  rfl

/-- Claim C5 counterexample: in the container
`[1,0,0,0, 20,0,0,0, 255,255, 1,0, 0,0,0,0,0,0,0,0, 255,255]` the stored
width bytes `0xFF 0xFF` of entry 0 encode the negative `i16` value `-1`,
yet `G1DATExtractor.extract_sprite` parses them unsigned as `65535`, does
not treat the entry as empty, and decodes a 65535-pixel-wide raster. -/
theorem C5_negative_width_is_decoded :
    toI16 65535 = -1 ∧
    read_entry_header
        [1, 0, 0, 0, 20, 0, 0, 0, 255, 255, 1, 0,
         0, 0, 0, 0, 0, 0, 0, 0, 255, 255] 4
      = some ⟨20, 65535, 1, 0, 0, 0⟩ ∧
    (extract_sprite
        [1, 0, 0, 0, 20, 0, 0, 0, 255, 255, 1, 0,
         0, 0, 0, 0, 0, 0, 0, 0, 255, 255]
        (freshState 1) 0).1
      = Except.ok (some ⟨65535, 1, fun _ _ => none⟩) := by
  refine ⟨rfl, rfl, rfl⟩

/-- Claim C6 counterexample: decoding the row stream
`[3, 1, 10, 129, 0, 12]` with width `2`, the source decoder does not
consume the palette bytes of the clipped positions of the length-3 opaque
run (it consumes one byte, not three), so the following run header is read
two bytes early and pixel `(0,0)` is colored `(67,67,47)`; under the
claimed always-consume-`n`-bytes reading (`chunkLoopSimpleClaimed`) pixel
`(0,0)` stays transparent.  Likewise `opaqueRun` of the other decoder
advances its cursor by `1`, not `3`, for a length-3 run clipped at
width 1. -/
theorem C6_clipped_bytes_not_consumed :
    chunkLoopSimple [3, 1, 10, 129, 0, 12] 2 0 7 0 (fun _ _ => none) 0 0
      = some (67, 67, 47) ∧
    chunkLoopSimpleClaimed [3, 1, 10, 129, 0, 12] 2 0 7 0 (fun _ _ => none) 0 0
      = none ∧
    chunkLoopSimple [3, 1, 10, 129, 0, 12] 2 0 7 0 (fun _ _ => none) 0 0
      ≠ chunkLoopSimpleClaimed [3, 1, 10, 129, 0, 12] 2 0 7 0
          (fun _ _ => none) 0 0 ∧
    (opaqueRun [7, 8, 9] 1 0 3 0 0 (fun _ _ => none)).map
        (fun t => (t.1, t.2.1))
      = some (1, 1) := by
  refine ⟨rfl, rfl, by decide, rfl⟩

/-- Claim C3, amended: when the container ends inside a sprite's row-offset
table, `G1DATExtractor.extract_sprite`'s decode body returns `None` (the
`struct.error` is caught) rather than raising, and any later
`extract_sprite` call is unaffected by earlier calls (its result equals the
result from a freshly opened extractor); `extract_sprite_simple`, by
contrast, propagates the uncaught `struct.error`
(`C3_simple_crashes_on_truncated_table`). -/
theorem C3_truncation_caught_and_later_decodes_unaffected :
    (∀ (bs : List Nat) (e : Entry), 0 < e.height.toNat →
        bs.length < e.offset + 2 * e.height.toNat →
        extract_sprite_data bs e = none) ∧
    (∀ (bs : List Nat) (s : G1State) (i j : Nat), cacheOK bs s →
        (extract_sprite bs ((extract_sprite bs s i).2) j).1
          = (extract_sprite bs s j).1) := by
  constructor
  · intro bs e hh hlen
    unfold extract_sprite_data
    rw [rowLoop_truncated hh hlen]
  · intro bs s i j hOK
    have h1 : cacheOK bs (extract_sprite bs s i).2 := extract_sprite_cacheOK hOK
    rw [extract_sprite_eq_fresh h1, extract_sprite_eq_fresh hOK,
      extract_sprite_num_entries]

/-- Witness for C3: on the container `[2, 0]` the decode body of a
`height 2` sprite returns `None`; on the two-entry container `bsW`,
decoding entry 0 after the truncated entry 1 gives the same result as from
a fresh extractor, entry 1 fails with `None` and entry 0 still decodes to a
raster. -/
theorem C3_truncation_witness :
    extract_sprite_data [2, 0] ⟨0, 1, 2, 0, 0, 0⟩ = none ∧
    (extract_sprite bsW ((extract_sprite bsW (freshState 2) 1).2) 0).1
      = (extract_sprite bsW (freshState 2) 0).1 ∧
    (extract_sprite bsW (freshState 2) 1).1 = Except.ok none ∧
    (extract_sprite bsW (freshState 2) 0).1
      = Except.ok (some ⟨1, 1, fun _ _ => none⟩) :=
  ⟨C3_truncation_caught_and_later_decodes_unaffected.1 [2, 0]
      ⟨0, 1, 2, 0, 0, 0⟩ (by decide) (by decide),
   C3_truncation_caught_and_later_decodes_unaffected.2 bsW (freshState 2) 1 0
      (fun _ => Or.inl rfl),
   rfl, rfl⟩

/-- Claim C4 (confirmed): a row whose row-offset table entry is the
decoder's empty-row sentinel (`0xFFFF` for `G1DATExtractor.extract_sprite`,
`0` or `0xFFFF` for `extract_sprite_simple`) is never written: every pixel
of that row in a returned raster keeps its default fully transparent
value. -/
theorem C4_sentinel_rows_stay_transparent :
    (∀ (bs : List Nat) (e : Entry) (ra : Raster),
        extract_sprite_data bs e = some ra →
        ∀ k, k < e.height.toNat →
        readU16 bs (e.offset + 2 * k) = some 65535 →
        ∀ x, ra.pix x k = none) ∧
    (∀ (bs : List Nat) (e : Entry) (ra : Raster),
        extract_sprite_simple bs e = Except.ok (some ra) →
        ∀ k ro, k < e.height.toNat →
        readU16 bs (e.offset + 2 * k) = some ro → (ro = 0 ∨ ro = 65535) →
        ∀ x, ra.pix x k = none) := by
  constructor
  · intro bs e ra h k hk hsent x
    unfold extract_sprite_data at h
    cases hrl : rowLoop bs e e.height.toNat 0 e.offset (fun _ _ => none) with
    | none => rw [hrl] at h; exact Option.noConfusion h
    | some pix =>
      rw [hrl] at h
      cases h
      have := rowLoop_sentinel k hrl hk hsent x
      simpa using this
  · intro bs e ra h k ro hk hread hsent x
    unfold extract_sprite_simple at h
    split at h
    · simp at h
    · cases hro : readRowOffsets bs e.height.toNat e.offset with
      | none => rw [hro] at h; exact Except.noConfusion h
      | some ros =>
        rw [hro] at h
        simp only [Except.ok.injEq, Option.some.injEq] at h
        have hget : ros[k]? = some ro := by
          rw [readRowOffsets_get hro k hk]
          exact hread
        have := @rowsSimple_sentinel bs e.offset e.width.toNat ros k ro 0
          (fun _ _ => none) hget hsent x
        rw [← h]
        simpa using this

/-- Witness for C4: on the container `[255, 255]` both decoders return a
1×1 raster whose sentinel row 0 is fully transparent. -/
theorem C4_sentinel_witness :
    extract_sprite_data [255, 255] ⟨0, 1, 1, 0, 0, 0⟩
      = some ⟨1, 1, fun _ _ => none⟩ ∧
    (⟨1, 1, fun _ _ => none⟩ : Raster).pix 0 0 = none ∧
    extract_sprite_simple [255, 255] ⟨0, 1, 1, 0, 0, 0⟩
      = Except.ok (some ⟨1, 1, fun _ _ => none⟩) :=
  ⟨rfl,
   C4_sentinel_rows_stay_transparent.1 [255, 255] ⟨0, 1, 1, 0, 0, 0⟩
      ⟨1, 1, fun _ _ => none⟩ rfl 0 (by decide) (by decide) 0,
   rfl⟩

/-- Claim C5, amended: only `extract_grass_simple.py` parses width and
height as signed `i16` and skips (returns `None`) whenever either is
`<= 0`; `G1DATExtractor._read_entry_header` parses them as unsigned `u16`
(so they are never negative) and `extract_sprite` skips exactly when one of
them equals `0`, decoding in every other case — stored bytes encoding a
negative `i16` are therefore decoded as a large positive width
(`C5_negative_width_is_decoded`), not treated as empty. -/
theorem C5_signed_skip_only_in_simple_decoder :
    (∀ (bs : List Nat) (e : Entry), e.width ≤ 0 ∨ e.height ≤ 0 →
        extract_sprite_simple bs e = Except.ok none) ∧
    (∀ (bs : List Nat) (pos : Nat) (e : Entry),
        read_entry_header bs pos = some e → 0 ≤ e.width ∧ 0 ≤ e.height) ∧
    (∀ (bs : List Nat) (e : Entry), e.width = 0 ∨ e.height = 0 →
        extract_entry bs e = none) ∧
    (∀ (bs : List Nat) (e : Entry), e.width ≠ 0 → e.height ≠ 0 →
        extract_entry bs e = extract_sprite_data bs e) := by
  refine ⟨?_, ?_, ?_, ?_⟩
  · intro bs e h
    unfold extract_sprite_simple
    rw [if_pos h]
  · intro bs pos e h
    simp only [read_entry_header, Option.bind_eq_bind, Option.bind_eq_some,
      Option.pure_def, Option.some.injEq] at h
    obtain ⟨off, -, w, -, hgt, -, xo, -, yo, -, fl, -, he⟩ := h
    rw [← he]
    exact ⟨Int.ofNat_nonneg w, Int.ofNat_nonneg hgt⟩
  · intro bs e h
    unfold extract_entry
    rw [if_pos h]
  · intro bs e hw hh
    unfold extract_entry
    rw [if_neg (by tauto)]

/-- Witness for C5: the simple decoder skips a `width -1` entry; the header
bytes of the C5 counterexample container parse to nonnegative dimensions
under `read_entry_header`; `extract_entry` skips a zero width and decodes a
nonzero one. -/
theorem C5_signed_skip_witness :
    extract_sprite_simple [] ⟨0, -1, 1, 0, 0, 0⟩ = Except.ok none ∧
    (0 ≤ (65535 : Int) ∧ 0 ≤ (1 : Int)) ∧
    extract_entry [] ⟨0, 0, 5, 0, 0, 0⟩ = none ∧
    extract_entry [255, 255] ⟨0, 1, 1, 0, 0, 0⟩
      = extract_sprite_data [255, 255] ⟨0, 1, 1, 0, 0, 0⟩ :=
  ⟨C5_signed_skip_only_in_simple_decoder.1 [] ⟨0, -1, 1, 0, 0, 0⟩
      (Or.inl (by decide)),
   C5_signed_skip_only_in_simple_decoder.2.1
      [1, 0, 0, 0, 20, 0, 0, 0, 255, 255, 1, 0,
       0, 0, 0, 0, 0, 0, 0, 0, 255, 255] 4 ⟨20, 65535, 1, 0, 0, 0⟩ rfl,
   C5_signed_skip_only_in_simple_decoder.2.2.1 [] ⟨0, 0, 5, 0, 0, 0⟩
      (Or.inl rfl),
   C5_signed_skip_only_in_simple_decoder.2.2.2 [255, 255] ⟨0, 1, 1, 0, 0, 0⟩
      (by decide) (by decide)⟩

/-- Claim C6, amended: an opaque run of length `n` emits pixels only at
in-bounds positions and consumes exactly one palette byte per in-bounds
position — the palette bytes of clipped positions are not consumed from
the stream (both decoders read the palette byte inside the bounds check) —
and no decoded pixel is ever written at a column `>= width` of the
raster. -/
theorem C6_runs_clip_without_consuming :
    (∀ (bs : List Nat) (w row n pos x : Nat) pix pos' x' pix',
        opaqueRun bs w row n pos x pix = some (pos', x', pix') →
        pos' = pos + min n (w - x) ∧ x' = x + min n (w - x)) ∧
    (∀ (bs : List Nat) (w row first k pos : Nat) pix pix' pos',
        runSimple bs w row first k 0 pos pix = (pix', some pos') →
        pos' = pos + min k (w - first)) ∧
    (∀ (bs : List Nat) (e : Entry) (ra : Raster),
        extract_sprite_data bs e = some ra →
        ∀ x y, e.width.toNat ≤ x → ra.pix x y = none) ∧
    (∀ (bs : List Nat) (e : Entry) (ra : Raster),
        extract_sprite_simple bs e = Except.ok (some ra) →
        ∀ x y, e.width.toNat ≤ x → ra.pix x y = none) := by
  refine ⟨?_, ?_, ?_, ?_⟩
  · intro bs w row n pos x pix pos' x' pix' h
    exact opaqueRun_consume h
  · intro bs w row first k pos pix pix' pos' h
    have := runSimple_consume h
    omega
  · intro bs e ra h x y hx
    unfold extract_sprite_data at h
    cases hrl : rowLoop bs e e.height.toNat 0 e.offset (fun _ _ => none) with
    | none => rw [hrl] at h; exact Option.noConfusion h
    | some pix =>
      rw [hrl] at h
      cases h
      exact rowLoop_col_preserve hrl x y hx
  · intro bs e ra h x y hx
    unfold extract_sprite_simple at h
    split at h
    · simp at h
    · cases hro : readRowOffsets bs e.height.toNat e.offset with
      | none => rw [hro] at h; exact Except.noConfusion h
      | some ros =>
        rw [hro] at h
        simp only [Except.ok.injEq, Option.some.injEq] at h
        rw [← h]
        exact rowsSimple_col_preserve ros 0 (fun _ _ => none) x y hx

/-- Witness for C6: a length-3 опaque run clipped at width 1 advances the
cursor by one byte in both run decoders, and decoded rasters are
transparent at all columns `>= width`. -/
theorem C6_clip_witness :
    (1 = 0 + min 3 (1 - 0) ∧ 1 = 0 + min 3 (1 - 0)) ∧
    1 = 0 + min 2 (1 - 0) ∧
    (⟨1, 1, fun _ _ => none⟩ : Raster).pix 5 0 = none ∧
    (⟨1, 1, fun _ _ => none⟩ : Raster).pix 7 3 = none :=
  ⟨C6_runs_clip_without_consuming.1 [7, 8, 9] 1 0 3 0 0 (fun _ _ => none)
      1 1 (setPix (fun _ _ => none) 0 0 (0, 0, 0)) rfl,
   C6_runs_clip_without_consuming.2.1 [9] 1 0 0 2 0 (fun _ _ => none)
      (setPix (fun _ _ => none) 0 0 (0, 0, 0)) 1 rfl,
   C6_runs_clip_without_consuming.2.2.1 [255, 255] ⟨0, 1, 1, 0, 0, 0⟩
      ⟨1, 1, fun _ _ => none⟩ rfl 5 0 (by decide),
   C6_runs_clip_without_consuming.2.2.2 [255, 255] ⟨0, 1, 1, 0, 0, 0⟩
      ⟨1, 1, fun _ _ => none⟩ rfl 7 3 (by decide)⟩

/-- Claim C7 (confirmed): `G1DATExtractor.extract_sprite` with an index at
or beyond the entry count returns `None` (the failure result) and leaves
the extractor state — cursor cache included — completely untouched: no
header is read and no exception is raised. -/
theorem C7_out_of_range_index_fails_cleanly :
    ∀ (bs : List Nat) (s : G1State) (i : Nat), s.num_entries ≤ i →
      extract_sprite bs s i = (Except.ok none, s) := by
  intro bs s i h
  unfold extract_sprite
  rw [if_pos h]

/-- Witness for C7: requesting index 2 of the two-entry container `bsW`
returns `None` and the untouched state. -/
theorem C7_out_of_range_witness :
    extract_sprite bsW (freshState 2) 2 = (Except.ok none, freshState 2) :=
  C7_out_of_range_index_fails_cleanly bsW (freshState 2) 2 (by decide)

/-- Claim C8 (confirmed): decoding is deterministic. The result of
`extract_sprite` for an index depends only on the container bytes and the
index: after any sequence of earlier `extract_sprite` calls on a freshly
opened extractor (which may have populated the header cache), decoding
yields exactly the value a freshly opened extractor yields — in
particular, two decodes each from a fresh extractor give byte-identical
rasters. -/
theorem C8_decoding_is_deterministic :
    ∀ (bs : List Nat) (n : Nat) (js : List Nat) (i : Nat),
      (extract_sprite bs (runDecodes bs (freshState n) js) i).1
        = (extract_sprite bs (freshState n) i).1 := by
  intro bs n js i
  have hOK : cacheOK bs (freshState n) := fun _ => Or.inl rfl
  have h1 := runDecodes_cacheOK js (freshState n) hOK
  rw [extract_sprite_eq_fresh h1, runDecodes_num_entries]
  rfl

/-- Claim C9 (confirmed): for a palette sprite with positive parsed width
whose `width` RGB triples fit in the container, the build step succeeds;
every palette cell outside the destination window `[x_offset,
x_offset + width)` — including every cell `>= 256` — is left unchanged,
and every in-range destination cell `j` receives exactly the raw RGB
triple read at source offset `offset + 3 * (j - x_offset)`; destinations
outside `[0, 256)` are dropped without any failure. -/
theorem C9_palette_build_copies_and_drops :
    (∀ (bs : List Nat) (idx : Nat) (pal : Nat → RGB) (off : Nat) (w xo : Int),
        paletteHeader bs idx = some (off, w, xo) →
        off + 3 * w.toNat ≤ bs.length →
        (paletteSpriteStep bs idx pal).isSome = true) ∧
    (∀ (bs : List Nat) (idx : Nat) (pal pal' : Nat → RGB) (off : Nat) (w xo : Int),
        paletteHeader bs idx = some (off, w, xo) →
        paletteSpriteStep bs idx pal = some pal' →
        (∀ j : Nat, ((j : Int) < xo ∨ xo + w ≤ (j : Int) ∨ 256 ≤ j) →
            pal' j = pal j) ∧
        (∀ j : Nat, j < 256 → xo ≤ (j : Int) → (j : Int) < xo + w →
            ∃ c, rgbAt bs (off + 3 * ((j : Int) - xo).toNat) = some c ∧
              pal' j = c)) := by
  constructor
  · intro bs idx pal off w xo hhdr hlen
    unfold paletteSpriteStep
    rw [hhdr]
    simp only
    split
    · rfl
    · exact palCopyLoop_isSome hlen
  · intro bs idx pal pal' off w xo hhdr hstep
    unfold paletteSpriteStep at hstep
    rw [hhdr] at hstep
    simp only at hstep
    split at hstep
    · rename_i hw
      simp only [Option.some.injEq] at hstep
      constructor
      · intro j _
        rw [← hstep]
      · intro j _ hlo hhi
        omega
    · rename_i hw
      constructor
      · intro j hj
        rcases hj with hj | hj | hj
        · refine palCopyLoop_outside hstep j (Or.inl ?_)
          push_cast
          omega
        · refine palCopyLoop_outside hstep j (Or.inr ?_)
          push_cast
          omega
        · exact palCopyLoop_ge256 hstep j hj
      · intro j hj256 hlo hhi
        have h1 : xo + ((0 : Nat) : Int) ≤ (j : Int) := by push_cast; omega
        have h2 : (j : Int) < xo + ((0 : Nat) : Int) + w.toNat := by
          push_cast
          omega
        obtain ⟨c, hrgb, hpal⟩ := palCopyLoop_inside hstep j hj256 h1 h2
        refine ⟨c, ?_, hpal⟩
        have : ((j : Int) - (xo + ((0 : Nat) : Int))).toNat
            = ((j : Int) - xo).toNat := by
          push_cast
          omega
        rw [this] at hrgb
        exact hrgb

/-- Witness for C9 on `bsPal`: the step succeeds, the cell just past the
destination window is unchanged, and destination cell 0 (the second triple,
since `x_offset = -1` drops the first) receives the triple `(4,5,6)` read
at source offset 27. -/
theorem C9_palette_build_witness :
    (paletteSpriteStep bsPal 0 (fun _ => (0, 0, 0))).isSome = true ∧
    palSet (fun _ => (0, 0, 0)) 0 (4, 5, 6) 1 = (0, 0, 0) ∧
    (∃ c, rgbAt bsPal (24 + 3 * (((0 : Nat) : Int) - (-1)).toNat) = some c ∧
      palSet (fun _ => (0, 0, 0)) 0 (4, 5, 6) 0 = c) :=
  ⟨C9_palette_build_copies_and_drops.1 bsPal 0 (fun _ => (0, 0, 0)) 24 2 (-1)
      (by decide) (by decide),
   (C9_palette_build_copies_and_drops.2 bsPal 0 (fun _ => (0, 0, 0))
      (palSet (fun _ => (0, 0, 0)) 0 (4, 5, 6)) 24 2 (-1) (by decide)
      (by rfl)).1 1 (by right; left; decide),
   (C9_palette_build_copies_and_drops.2 bsPal 0 (fun _ => (0, 0, 0))
      (palSet (fun _ => (0, 0, 0)) 0 (4, 5, 6)) 24 2 (-1) (by decide)
      (by rfl)).2 0 (by decide) (by decide) (by decide)⟩

/-- Claim C10 (confirmed): both chunk-reading loops terminate on every
input.  Each is embedded with an explicit iteration bound (fuel), every
iteration consumes at least one byte of the finite container (a read at
end of file surfaces as the caught-exception branch), and the loop's
result is the same for every bound exceeding the number of unread bytes —
so neither loop can run forever on any container byte source. -/
theorem C10_decoders_terminate :
    (∀ (bs : List Nat) (w row f g pos x : Nat) pix,
        bs.length - pos < f → bs.length - pos < g →
        chunkLoopR bs w row f pos x pix = chunkLoopR bs w row g pos x pix) ∧
    (∀ (bs : List Nat) (w row f g pos : Nat) pix,
        bs.length - pos < f → bs.length - pos < g →
        chunkLoopSimple bs w row f pos pix
          = chunkLoopSimple bs w row g pos pix) :=
  ⟨fun _ _ _ f g pos x pix hf hg => chunkLoopR_fuel f g pos x pix hf hg,
   fun _ _ _ f g pos pix hf hg => chunkLoopSimple_fuel f g pos pix hf hg⟩

/-- Witness for C10: on the one-byte container `[0]` both chunk loops give
identical results with bounds 9 and 2. -/
theorem C10_termination_witness :
    chunkLoopR [0] 1 0 9 0 0 (fun _ _ => none)
      = chunkLoopR [0] 1 0 2 0 0 (fun _ _ => none) ∧
    chunkLoopSimple [0] 1 0 9 0 (fun _ _ => none)
      = chunkLoopSimple [0] 1 0 2 0 (fun _ _ => none) :=
  ⟨C10_decoders_terminate.1 [0] 1 0 9 2 0 0 (fun _ _ => none)
      (by decide) (by decide),
   C10_decoders_terminate.2 [0] 1 0 9 2 0 (fun _ _ => none)
      (by decide) (by decide)⟩
